import Mathlib

/-!
Shallow embedding of `cspro/SQLite/Encryption.h` (namespace `SqliteEncryption`).

The header is a compile-time feature gate around the proprietary SQLite
Encryption Extension (SEE).  The preprocessor switch `SQLITE_HAS_CODEC` is
modelled as a boolean field of a `Build` record; the external primitives
`::sqlite3_key` and `::sqlite3_rekey` are modelled as oracle functions over an
abstract external-world state `σ` (covering the connection and the key buffer,
both owned by the external engine).  Each wrapper call returns its result
(`Except CSProException Int`, since the no-codec branch throws), the external
state after the call, and the list of external codec calls it performed, so
that "never reaches the external codec" is the trace being empty.
-/

namespace SqliteEncryption

/-- The fixed message of the exception thrown when SEE is absent, from the
`NoSeeExceptionMessage` constant in `Encryption.h`. -/
def NoSeeExceptionMessage : String :=
  "SQLite encryption is not enabled in this CSPro build."

/-- Model of `CSProException`: an exception carrying a message string. -/
structure CSProException where
  message : String
deriving DecidableEq, Repr

/-- Which external SEE primitive a call invoked. -/
inductive Prim where
  | key
  | rekey
deriving DecidableEq, Repr

/-- One call made to the external codec: the primitive invoked and the three
arguments passed to it (`db` and `pKey` as opaque pointer values, `nKey` as
the key length). -/
structure ExtCall where
  prim : Prim
  db : Nat
  pKey : Nat
  nKey : Int
deriving DecidableEq, Repr

/-- A build configuration: whether `SQLITE_HAS_CODEC` was defined, plus the
external SEE primitives `::sqlite3_key` and `::sqlite3_rekey`, modelled as
oracles from the external state and the three arguments to a status code and a
successor external state. -/
structure Build (σ : Type) where
  hasCodec : Bool
  extKey : σ → Nat → Nat → Int → Int × σ
  extRekey : σ → Nat → Nat → Int → Int × σ

/-- Embedding of `SqliteEncryption::IsEnabled`: under `SQLITE_HAS_CODEC` it
returns `true`, otherwise `false`. -/
def IsEnabled {σ : Type} (b : Build σ) : Bool :=
  if b.hasCodec then true else false

/-- Embedding of `SqliteEncryption::sqlite3_key`.  Under `SQLITE_HAS_CODEC`
it returns `::sqlite3_key(db, pKey, nKey)`; otherwise it evaluates the
arguments as discarded expression statements and throws
`CSProException(NoSeeExceptionMessage)`. -/
def sqlite3_key {σ : Type} (b : Build σ) (db pKey : Nat) (nKey : Int)
    (s : σ) : Except CSProException Int × σ × List ExtCall :=
  if b.hasCodec then
    let r := b.extKey s db pKey nKey
    (Except.ok r.1, r.2, [⟨Prim.key, db, pKey, nKey⟩])
  else
    (Except.error ⟨NoSeeExceptionMessage⟩, s, [])

/-- Embedding of `SqliteEncryption::sqlite3_rekey`.  Under `SQLITE_HAS_CODEC`
it returns `::sqlite3_rekey(db, pKey, nKey)`; otherwise it throws
`CSProException(NoSeeExceptionMessage)`. -/
def sqlite3_rekey {σ : Type} (b : Build σ) (db pKey : Nat) (nKey : Int)
    (s : σ) : Except CSProException Int × σ × List ExtCall :=
  if b.hasCodec then
    let r := b.extRekey s db pKey nKey
    (Except.ok r.1, r.2, [⟨Prim.rekey, db, pKey, nKey⟩])
  else
    (Except.error ⟨NoSeeExceptionMessage⟩, s, [])

/-- A concrete external codec used to instantiate witnesses: the key primitive
returns `nKey + db` and bumps the state by one. -/
def demoKey : Nat → Nat → Nat → Int → Int × Nat :=
  fun s db _ nKey => (nKey + (db : Int), s + 1)

/-- A concrete external re-key primitive for witnesses: returns `nKey - pKey`
and bumps the state by two. -/
def demoRekey : Nat → Nat → Nat → Int → Int × Nat :=
  fun s _ pKey nKey => (nKey - (pKey : Int), s + 2)

/-- A concrete build with the codec compiled in. -/
def seeBuild : Build Nat :=
  ⟨true, demoKey, demoRekey⟩

/-- A concrete build without the codec. -/
def noSeeBuild : Build Nat :=
  ⟨false, demoKey, demoRekey⟩

/-- C1: In a build without the codec, `sqlite3_key` and `sqlite3_rekey`
always raise the `CSProException` with `NoSeeExceptionMessage`, never invoke
any external codec primitive (the call trace is empty), and the outcome is the
same for every argument tuple, null pointers included. -/
theorem noCodec_key_rekey_always_unavailable {σ : Type} (b : Build σ)
    (db pKey db2 pKey2 : Nat) (nKey nKey2 : Int) (s : σ)
    (h : b.hasCodec = false) :
    sqlite3_key b db pKey nKey s =
      (Except.error ⟨NoSeeExceptionMessage⟩, s, []) ∧
    sqlite3_rekey b db pKey nKey s =
      (Except.error ⟨NoSeeExceptionMessage⟩, s, []) ∧
    sqlite3_key b db pKey nKey s = sqlite3_key b db2 pKey2 nKey2 s ∧
    sqlite3_rekey b db pKey nKey s = sqlite3_rekey b db2 pKey2 nKey2 s := by
  simp [sqlite3_key, sqlite3_rekey, h]

/-- Witness for C1, at a concrete codec-less build with a null connection
handle and null/zero key bytes. -/
theorem noCodec_key_rekey_always_unavailable_witness :
    noSeeBuild.hasCodec = false ∧
    sqlite3_key noSeeBuild 0 0 0 5 =
      (Except.error ⟨NoSeeExceptionMessage⟩, 5, []) :=
  ⟨rfl, (noCodec_key_rekey_always_unavailable noSeeBuild 0 0 1 2 0 3 5 rfl).1⟩

/-- C2: In a build with the codec, `sqlite3_key` calls the external
`::sqlite3_key` with exactly the given connection handle, key pointer and key
length (recorded in the trace) and returns exactly its status code, and
`sqlite3_rekey` does the same with `::sqlite3_rekey`. -/
theorem codec_key_rekey_forward_verbatim {σ : Type} (b : Build σ)
    (db pKey : Nat) (nKey : Int) (s : σ) (h : b.hasCodec = true) :
    sqlite3_key b db pKey nKey s =
      (Except.ok (b.extKey s db pKey nKey).1, (b.extKey s db pKey nKey).2,
        [⟨Prim.key, db, pKey, nKey⟩]) ∧
    sqlite3_rekey b db pKey nKey s =
      (Except.ok (b.extRekey s db pKey nKey).1, (b.extRekey s db pKey nKey).2,
        [⟨Prim.rekey, db, pKey, nKey⟩]) := by
  simp [sqlite3_key, sqlite3_rekey, h]

/-- Witness for C2, at a concrete codec build: the demo primitive returns
`nKey + db = 7 + 4` and its call is recorded verbatim. -/
theorem codec_key_rekey_forward_verbatim_witness :
    seeBuild.hasCodec = true ∧
    sqlite3_key seeBuild 4 9 7 5 =
      (Except.ok 11, 6, [⟨Prim.key, 4, 9, 7⟩]) :=
  ⟨rfl, (codec_key_rekey_forward_verbatim seeBuild 4 9 7 5 rfl).1⟩

/-- C3: `IsEnabled` is a pure constant of the build configuration: it returns
`true` in a build with the codec and `false` in a build without it, and it is
total (a Lean function, so no inputs beyond the build, no effects, no
failure). -/
theorem isEnabled_reflects_build {σ : Type} (b : Build σ) :
    (b.hasCodec = true → IsEnabled b = true) ∧
    (b.hasCodec = false → IsEnabled b = false) := by
  constructor <;> intro h <;> simp [IsEnabled, h]

/-- Witness for C3, at the two concrete builds. -/
theorem isEnabled_reflects_build_witness :
    IsEnabled seeBuild = true ∧ IsEnabled noSeeBuild = false :=
  ⟨(isEnabled_reflects_build seeBuild).1 rfl,
   (isEnabled_reflects_build noSeeBuild).2 rfl⟩

/-- C4: When the codec is absent the failure is atomic: both operations fail
with an exception, the external state (connection, key buffer) after the call
is identical to the state before it, and no external call is forwarded. -/
theorem noCodec_fail_atomic {σ : Type} (b : Build σ) (db pKey : Nat)
    (nKey : Int) (s : σ) (h : b.hasCodec = false) :
    (∃ e, (sqlite3_key b db pKey nKey s).1 = Except.error e) ∧
    (sqlite3_key b db pKey nKey s).2.1 = s ∧
    (sqlite3_key b db pKey nKey s).2.2 = [] ∧
    (∃ e, (sqlite3_rekey b db pKey nKey s).1 = Except.error e) ∧
    (sqlite3_rekey b db pKey nKey s).2.1 = s ∧
    (sqlite3_rekey b db pKey nKey s).2.2 = [] := by
  simp [sqlite3_key, sqlite3_rekey, h]

/-- Witness for C4: in the codec-less build the external state 17 is returned
untouched and the trace is empty. -/
theorem noCodec_fail_atomic_witness :
    noSeeBuild.hasCodec = false ∧
    (sqlite3_rekey noSeeBuild 3 4 5 17).2.1 = 17 ∧
    (sqlite3_rekey noSeeBuild 3 4 5 17).2.2 = [] :=
  ⟨rfl, (noCodec_fail_atomic noSeeBuild 3 4 5 17 rfl).2.2.2.2.1,
   (noCodec_fail_atomic noSeeBuild 3 4 5 17 rfl).2.2.2.2.2⟩

/-- C5: In a build with the codec, neither operation raises an error of its
own: for every input the result is the `Except.ok` of exactly the external
codec's status code, uninterpreted and unwrapped. -/
theorem codec_no_own_errors {σ : Type} (b : Build σ) (db pKey : Nat)
    (nKey : Int) (s : σ) (h : b.hasCodec = true) :
    (sqlite3_key b db pKey nKey s).1 =
      Except.ok (b.extKey s db pKey nKey).1 ∧
    (sqlite3_rekey b db pKey nKey s).1 =
      Except.ok (b.extRekey s db pKey nKey).1 := by
  simp [sqlite3_key, sqlite3_rekey, h]

/-- Witness for C5: in the codec build the demo status codes pass through
as-is (`7 + 4` for key, `7 - 9` for re-key). -/
theorem codec_no_own_errors_witness :
    seeBuild.hasCodec = true ∧
    (sqlite3_key seeBuild 4 9 7 5).1 = Except.ok 11 ∧
    (sqlite3_rekey seeBuild 4 9 7 5).1 = Except.ok (-2) :=
  ⟨rfl, (codec_no_own_errors seeBuild 4 9 7 5 rfl).1,
   (codec_no_own_errors seeBuild 4 9 7 5 rfl).2⟩

/-- C6: In a build without the codec the failure carries the one fixed
message of `NoSeeExceptionMessage`, the same constant string for both
`sqlite3_key` and `sqlite3_rekey` on every invocation. -/
theorem noCodec_fixed_message {σ : Type} (b : Build σ)
    (db pKey db2 pKey2 : Nat) (nKey nKey2 : Int) (s s2 : σ)
    (h : b.hasCodec = false) :
    NoSeeExceptionMessage =
      "SQLite encryption is not enabled in this CSPro build." ∧
    (sqlite3_key b db pKey nKey s).1 =
      Except.error ⟨NoSeeExceptionMessage⟩ ∧
    (sqlite3_rekey b db2 pKey2 nKey2 s2).1 =
      Except.error ⟨NoSeeExceptionMessage⟩ := by
  simp [sqlite3_key, sqlite3_rekey, h, NoSeeExceptionMessage]

/-- Witness for C6, at the codec-less build with two different argument
tuples. -/
theorem noCodec_fixed_message_witness :
    noSeeBuild.hasCodec = false ∧
    (sqlite3_key noSeeBuild 1 2 3 4).1 =
      Except.error ⟨NoSeeExceptionMessage⟩ ∧
    (sqlite3_rekey noSeeBuild 5 6 7 8).1 =
      Except.error ⟨NoSeeExceptionMessage⟩ :=
  ⟨rfl, (noCodec_fixed_message noSeeBuild 1 2 5 6 3 7 4 8 rfl).2.1,
   (noCodec_fixed_message noSeeBuild 1 2 5 6 3 7 4 8 rfl).2.2⟩

/-- C7: `sqlite3_rekey` has a contract identical to `sqlite3_key` except for
the forwarded primitive: without the codec the two functions are extensionally
equal, and with the codec `sqlite3_rekey` behaves exactly as `sqlite3_key`
would in a build whose key primitive is the re-key primitive, differing only
in which external primitive the trace records (same arguments). -/
theorem rekey_contract_identical_to_key {σ : Type} (b : Build σ)
    (db pKey : Nat) (nKey : Int) (s : σ) :
    (b.hasCodec = false →
      sqlite3_rekey b db pKey nKey s = sqlite3_key b db pKey nKey s) ∧
    (b.hasCodec = true →
      (sqlite3_rekey b db pKey nKey s).1 =
        (sqlite3_key (Build.mk b.hasCodec b.extRekey b.extRekey)
          db pKey nKey s).1 ∧
      (sqlite3_rekey b db pKey nKey s).2.1 =
        (sqlite3_key (Build.mk b.hasCodec b.extRekey b.extRekey)
          db pKey nKey s).2.1 ∧
      (sqlite3_rekey b db pKey nKey s).2.2 = [⟨Prim.rekey, db, pKey, nKey⟩] ∧
      (sqlite3_key (Build.mk b.hasCodec b.extRekey b.extRekey)
          db pKey nKey s).2.2 = [⟨Prim.key, db, pKey, nKey⟩]) := by
  constructor <;> intro h <;> simp [sqlite3_key, sqlite3_rekey, h]

/-- Witness for C7: in the codec-less build, re-key literally equals key-set;
the hypothesis of the first conjunct is discharged at `noSeeBuild`. -/
theorem rekey_contract_identical_to_key_witness :
    sqlite3_rekey noSeeBuild 1 2 3 4 = sqlite3_key noSeeBuild 1 2 3 4 :=
  (rekey_contract_identical_to_key noSeeBuild 1 2 3 4).1 rfl

/-- C8: The fragment holds no state: the outcome (result and forwarded calls)
of `sqlite3_key` and `sqlite3_rekey` depends only on the arguments and on the
external codec's response for them — two calls across any two builds and
external states that agree on the codec switch and on the codec's status
codes produce identical outcomes, regardless of any prior calls. -/
theorem outcome_depends_only_on_args_and_codec {σ₁ σ₂ : Type}
    (b₁ : Build σ₁) (b₂ : Build σ₂) (db pKey : Nat) (nKey : Int)
    (s₁ : σ₁) (s₂ : σ₂) (hc : b₁.hasCodec = b₂.hasCodec)
    (hk : (b₁.extKey s₁ db pKey nKey).1 = (b₂.extKey s₂ db pKey nKey).1)
    (hr : (b₁.extRekey s₁ db pKey nKey).1 =
      (b₂.extRekey s₂ db pKey nKey).1) :
    (sqlite3_key b₁ db pKey nKey s₁).1 =
      (sqlite3_key b₂ db pKey nKey s₂).1 ∧
    (sqlite3_key b₁ db pKey nKey s₁).2.2 =
      (sqlite3_key b₂ db pKey nKey s₂).2.2 ∧
    (sqlite3_rekey b₁ db pKey nKey s₁).1 =
      (sqlite3_rekey b₂ db pKey nKey s₂).1 ∧
    (sqlite3_rekey b₁ db pKey nKey s₁).2.2 =
      (sqlite3_rekey b₂ db pKey nKey s₂).2.2 := by
  rcases hb : b₁.hasCodec with hoff | hon <;>
    simp [sqlite3_key, sqlite3_rekey, hb, ← hc, hk, hr]

/-- Witness for C8: a repeated call from external states 5 and 5 (hence equal
codec responses) gives identical outcomes. -/
theorem outcome_depends_only_on_args_and_codec_witness :
    seeBuild.hasCodec = seeBuild.hasCodec ∧
    (sqlite3_key seeBuild 4 9 7 5).1 = (sqlite3_key seeBuild 4 9 7 5).1 :=
  ⟨rfl, (outcome_depends_only_on_args_and_codec seeBuild seeBuild 4 9 7 5 5
    rfl rfl rfl).1⟩

/-- C9: The capability query governs both operations in every build: each
operation raises the unavailability exception exactly when `IsEnabled` is
`false`, and forwards to the external codec (nonempty trace) exactly when
`IsEnabled` is `true`. -/
theorem gate_consistent_with_isEnabled {σ : Type} (b : Build σ)
    (db pKey : Nat) (nKey : Int) (s : σ) :
    (((sqlite3_key b db pKey nKey s).1 =
        Except.error ⟨NoSeeExceptionMessage⟩) ↔ IsEnabled b = false) ∧
    ((sqlite3_key b db pKey nKey s).2.2 ≠ [] ↔ IsEnabled b = true) ∧
    (((sqlite3_rekey b db pKey nKey s).1 =
        Except.error ⟨NoSeeExceptionMessage⟩) ↔ IsEnabled b = false) ∧
    ((sqlite3_rekey b db pKey nKey s).2.2 ≠ [] ↔ IsEnabled b = true) := by
  rcases hb : b.hasCodec with hoff | hon <;>
    simp [sqlite3_key, sqlite3_rekey, IsEnabled, hb]

/-- C10: In a build without the codec neither operation ever returns
normally: no integer status code is produced, so unavailability is signalled
exclusively by the thrown exception. -/
theorem noCodec_no_normal_return {σ : Type} (b : Build σ) (db pKey : Nat)
    (nKey : Int) (s : σ) (h : b.hasCodec = false) (r : Int) :
    (sqlite3_key b db pKey nKey s).1 ≠ Except.ok r ∧
    (sqlite3_rekey b db pKey nKey s).1 ≠ Except.ok r := by
  simp [sqlite3_key, sqlite3_rekey, h]

/-- Witness for C10: the codec-less build never returns the status code 0. -/
theorem noCodec_no_normal_return_witness :
    noSeeBuild.hasCodec = false ∧
    (sqlite3_key noSeeBuild 1 2 3 4).1 ≠ Except.ok 0 :=
  ⟨rfl, (noCodec_no_normal_return noSeeBuild 1 2 3 4 rfl 0).1⟩

end SqliteEncryption
